import Mathlib

/-!
Shallow embedding of the newsletter-digest clustering and curation pipeline
(src/utils/helpers.js, src/processing/embed.js, src/processing/cluster.js,
src/ai/gemini.js, src/index.js), with theorems about the spec's claims.

External services (the embedding API, the text-generation API, `Math.sqrt`,
and the `ml-kmeans` library) are passed in as explicit function parameters;
everything else is translated from the JavaScript source.  Machine floats
are modelled by `ℚ`; the float square root is an abstract parameter since
only the zero/non-zero distinction is ever observable in the claims.
-/

namespace Digest

/-! ### Data model (spec §3, produced by src/processing/extract.js) -/

/-- A link extracted from an article: `{text, url}`. -/
structure Link where
  text : String
  url : String
deriving DecidableEq, Repr

/-- An article as produced upstream.  `dateStr` stands for the JS
`date.toLocaleDateString()` rendering used when formatting prompts. -/
structure Article where
  id : String
  source : String
  subject : String
  content : String
  wordCount : Nat
  dateStr : String
  links : List Link
deriving DecidableEq, Repr

instance : Inhabited Article := ⟨⟨"", "", "", "", 0, "", []⟩⟩

/-- Embedding vectors; JS float arrays modelled over `ℚ`. -/
abbrev Vec := List ℚ

/-- Embedding of `EmbeddedArticle`: an article paired with its embedding vector. -/
structure EmbeddedArticle where
  article : Article
  embedding : Vec
deriving DecidableEq, Repr

/-! ### src/utils/helpers.js -/

/-- Embedding of `chunk(array, size)` from helpers.js: split a list into consecutive
slices of `size` elements.  The JS loop `for (i = 0; i < len; i += size)`
never terminates for `size = 0`; all callers pass a positive constant, and
the `size = 0` case is mapped to `[]` here to keep the definition total. -/
def chunk (array : List α) (size : Nat) : List (List α) :=
  match array with
  | [] => []
  | x :: xs =>
    if size = 0 then []
    else (x :: xs).take size :: chunk ((x :: xs).drop size) size
termination_by array.length
decreasing_by
  simp only [List.length_drop, List.length_cons]
  omega

/-- Attempt loop of `withRetry` from helpers.js: try `fn` on attempts
`attempt, attempt+1, ...` while `remaining` budget is left, rethrowing the
last error once the budget is exhausted. -/
def withRetryAux (fn : Nat → Except ε α) (lastError : ε) :
    Nat → Nat → Except ε α
  | 0, _ => .error lastError
  | remaining + 1, attempt =>
    match fn attempt with
    | .ok v => .ok v
    | .error e => withRetryAux fn e remaining (attempt + 1)

/-- Embedding of `withRetry(fn, maxRetries, baseDelay)` from helpers.js.  The delay only
paces the retries and is dropped; the call on attempt `i` is modelled by
`fn i` so that different attempts may behave differently.  When
`maxRetries = 0` the JS code throws the undefined `lastError`; that dead
case (every caller passes 3) surfaces as the `default` error here. -/
def withRetry [Inhabited ε] (fn : Nat → Except ε α) (maxRetries : Nat) :
    Except ε α :=
  withRetryAux fn default maxRetries 0

/-- Embedding of `cosineSimilarity(a, b)` from helpers.js, with `Math.sqrt` passed in as
`sqrt`.  The JS loop indexes `b[i]` for `i < a.length`; out-of-range reads
are modelled by `getD _ 0` (callers only pass equal-length vectors). -/
def cosineSimilarity (sqrt : ℚ → ℚ) (a b : Vec) : ℚ :=
  let dotProduct := (List.range a.length).foldl
    (fun acc i => acc + a.getD i 0 * b.getD i 0) 0
  let normA := (List.range a.length).foldl
    (fun acc i => acc + a.getD i 0 * a.getD i 0) 0
  let normB := (List.range a.length).foldl
    (fun acc i => acc + b.getD i 0 * b.getD i 0) 0
  let denominator := sqrt normA * sqrt normB
  if denominator = 0 then 0 else dotProduct / denominator

/-! ### src/processing/embed.js -/

/-- Embedding of `BATCH_SIZE` from embed.js. -/
def BATCH_SIZE : Nat := 20

/-- Embedding of `MAX_CHARS_PER_ARTICLE` from embed.js. -/
def MAX_CHARS_PER_ARTICLE : Nat := 6000

/-- Embedding of `truncateForEmbedding(text, maxChars)` from embed.js (always called at
the default `maxChars = MAX_CHARS_PER_ARTICLE`). -/
def truncateForEmbedding (text : String) : String :=
  if text.length ≤ MAX_CHARS_PER_ARTICLE then text
  else text.take MAX_CHARS_PER_ARTICLE

/-- Embedding of `prepareText(article)` from embed.js. -/
def prepareText (article : Article) : String :=
  truncateForEmbedding (article.subject ++ "\n\n" ++ article.content)

/-- The inner `for (j …) results.push({article: batch[j], embedding: embeddings[j]})`
loop of `generateEmbeddings`: one `EmbeddedArticle` per batch member, in
order.  A missing `embeddings[j]` (JS `undefined`) is modelled by `[]`; the
embedding service contract guarantees one vector per input. -/
def pairBatch (batch : List Article) (embeddings : List Vec) :
    List EmbeddedArticle :=
  (List.range batch.length).map
    (fun j => ⟨batch.getD j default, embeddings.getD j []⟩)

/-- The `withRetry(() => embedBatch(texts), 3, 1000)` call of
`generateEmbeddings` for one batch: `svc` is the remote embedding service,
taking the attempt number and the prepared texts. -/
def batchOutcome (svc : Nat → List String → Except String (List Vec))
    (batch : List Article) : Except String (List Vec) :=
  withRetry (fun attempt => svc attempt (batch.map prepareText)) 3

/-- Embedding of `generateEmbeddings(articles)` from embed.js.  Successful batches
contribute their article/vector pairs to `results`; a batch that exhausts
its retries contributes all of its article ids to `failed` and processing
continues.  The function throws exactly when `results` ends up empty.  The
returned pair is `(results, failed)`; the JS code logs `failed` instead of
returning it, and it is exposed here as the observable record of dropped
articles. -/
def generateEmbeddings (svc : Nat → List String → Except String (List Vec))
    (articles : List Article) :
    Except String (List EmbeddedArticle × List String) :=
  let batches := chunk articles BATCH_SIZE
  let step := batches.foldl
    (fun (acc : List EmbeddedArticle × List String) batch =>
      match batchOutcome svc batch with
      | .ok embeddings => (acc.1 ++ pairBatch batch embeddings, acc.2)
      | .error _ => (acc.1, acc.2 ++ batch.map (·.id)))
    ([], [])
  if step.1.isEmpty then .error "Failed to generate any embeddings"
  else .ok step

/-! ### src/processing/cluster.js -/

/-- Embedding of `DEFAULT_CLUSTER_COUNT` from cluster.js. -/
def DEFAULT_CLUSTER_COUNT : Nat := 8

/-- Embedding of `MAIN_CLUSTER_THRESHOLD` from cluster.js. -/
def MAIN_CLUSTER_THRESHOLD : Nat := 5

/-- Embedding of `normalizeVector(vector)` from cluster.js, with `Math.sqrt` abstract. -/
def normalizeVector (sqrt : ℚ → ℚ) (vector : Vec) : Vec :=
  let magnitude := sqrt (vector.foldl (fun sum v => sum + v * v) 0)
  vector.map (fun v => v / magnitude)

/-- The result object of the `ml-kmeans` library call: an assignment label
per data point plus one centroid per label. -/
structure KmeansResult where
  clusters : List Nat
  centroids : List Vec
deriving DecidableEq, Repr

/-- The cluster objects built by cluster.js.  The JS objects carry
different field sets on different code paths; fields absent on a given
path are `none`. -/
structure Cluster where
  id : Nat
  originalId : Option Nat
  articles : List Article
  centroid : Option Vec
  type : String
  size : Option Nat
  label : Option String
deriving DecidableEq, Repr

/-- The intermediate `{originalId, articles, size, centroid}` objects built
by `clusterArticles` just before sorting. -/
structure SizedCluster where
  originalId : Nat
  articles : List Article
  size : Nat
  centroid : Vec
deriving DecidableEq, Repr

/-- Return value of `clusterArticles`. -/
structure ClusterResult where
  clusters : List Cluster
  assignments : List Nat
deriving DecidableEq, Repr

/-- One step of the `clusterGroups` Map construction in `clusterArticles`:
`clusterGroups.get(key).push(a)` when the key is present (JS `Map` keys are
unique, so exactly the first matching entry is extended), otherwise
`clusterGroups.set(key, [a])` appends a new entry in insertion order. -/
def insertGroup : List (Nat × List Article) → Nat → Article →
    List (Nat × List Article)
  | [], key, a => [(key, [a])]
  | g :: gs, key, a =>
    if g.1 = key then (g.1, g.2 ++ [a]) :: gs
    else g :: insertGroup gs key a

/-- The grouping loop of `clusterArticles`: walk the kmeans assignments in
parallel with the embedded articles, accumulating an insertion-ordered
association list from cluster label to member articles. -/
def buildGroups (embeddedArticles : List EmbeddedArticle)
    (assignments : List Nat) : List (Nat × List Article) :=
  (List.zip assignments (embeddedArticles.map (·.article))).foldl
    (fun groups p => insertGroup groups p.1 p.2) []

/-- The `.map(([id, articles]) => ({originalId, articles, size, centroid}))`
step of `clusterArticles`; `result.centroids[id]` is `getD _ []`. -/
def toSizedClusters (groups : List (Nat × List Article))
    (centroids : List Vec) : List SizedCluster :=
  groups.map (fun g =>
    ⟨g.1, g.2, g.2.length, centroids.getD g.1 []⟩)

/-- The `.sort((a, b) => b.size - a.size)` step of `clusterArticles`.
`Array.prototype.sort` is stable, and a stable sort under this comparator
is exactly insertion sort under `b.size ≤ a.size`. -/
def sortBySizeDesc (l : List SizedCluster) : List SizedCluster :=
  l.insertionSort (fun a b => b.size ≤ a.size)

/-- The final `.map((cluster, index) => …)` step of `clusterArticles`:
re-index the sorted clusters `0, 1, …` and assign types positionally. -/
def indexClusters (sortedClusters : List SizedCluster) : List Cluster :=
  sortedClusters.enum.map (fun p =>
    { id := p.1
      originalId := some p.2.originalId
      articles := p.2.articles
      centroid := some p.2.centroid
      type := if p.1 < MAIN_CLUSTER_THRESHOLD then "main" else "miscellaneous"
      size := some p.2.size
      label := none })

/-- Embedding of `clusterArticles(embeddedArticles, k)` from cluster.js, with `Math.sqrt`
and the `ml-kmeans` library (`km`) abstract. -/
def clusterArticles (sqrt : ℚ → ℚ) (km : List Vec → Nat → KmeansResult)
    (embeddedArticles : List EmbeddedArticle) (k : Nat) : ClusterResult :=
  if embeddedArticles.length = 0 then ⟨[], []⟩
  else if embeddedArticles.length ≤ k then
    { clusters := embeddedArticles.enum.map (fun p =>
        { id := p.1
          originalId := none
          articles := [p.2.article]
          centroid := some p.2.embedding
          type := if p.1 < MAIN_CLUSTER_THRESHOLD then "main" else "miscellaneous"
          size := none
          label := none })
      assignments := List.range embeddedArticles.length }
  else
    let normalizedData := embeddedArticles.map
      (fun item => normalizeVector sqrt item.embedding)
    let result := km normalizedData k
    let sortedClusters := sortBySizeDesc
      (toSizedClusters (buildGroups embeddedArticles result.clusters)
        result.centroids)
    ⟨indexClusters sortedClusters, result.clusters⟩

/-- Embedding of `findRepresentativeArticles(cluster, embeddedArticles, count)` from
cluster.js.  The `.sort((a, b) => b.similarity - a.similarity)` is again a
stable descending sort. -/
def findRepresentativeArticles (sqrt : ℚ → ℚ) (cluster : Cluster)
    (embeddedArticles : List EmbeddedArticle) (count : Nat) : List Article :=
  match cluster.centroid with
  | none => cluster.articles
  | some centroid =>
    if cluster.articles.length ≤ count then cluster.articles
    else
      let articleIds := cluster.articles.map (·.id)
      let clusterEmbeddings := embeddedArticles.filter
        (fun e => articleIds.contains e.article.id)
      let withSimilarity := clusterEmbeddings.map
        (fun item => (item.article, cosineSimilarity sqrt item.embedding centroid))
      ((withSimilarity.insertionSort (fun x y => y.2 ≤ x.2)).take count).map (·.1)

/-! ### src/ai/gemini.js — first generation (curation pipeline)

The text-generation service is an abstract parameter
`gen : Nat → String → Except String String` (attempt number → prompt →
response or thrown error); prompt templates, which gemini.js loads from
disk, are abstract `String` parameters. -/

/-- Embedding of `Selection`: the `{selected, reasoning}` result of both selection
variants. -/
structure Selection where
  selected : List Article
  reasoning : String
deriving DecidableEq, Repr

/-- Embedding of `formatArticlesForAI(articles)` from gemini.js (whitespace of the JS
template literal reproduced only approximately; the resulting prompt text
is never inspected). -/
def formatArticlesForAI (articles : List Article) : String :=
  String.intercalate "\n\n" (articles.enum.map (fun p =>
    let article := p.2
    let links := String.intercalate "\n"
      ((article.links.take 5).map (fun l => "  - " ++ l.text ++ ": " ++ l.url))
    "### Article " ++ toString (p.1 + 1) ++ ": " ++ article.subject ++
      "\n**Source:** " ++ article.source ++
      "\n**Date:** " ++ article.dateStr ++
      "\n**Word Count:** " ++ toString article.wordCount ++
      "\n\n" ++ article.content ++ "\n\n" ++
      (if links ≠ "" then "**Key Links:**\n" ++ links else "")))

/-- The strategy records returned by `getCurationStrategy`. -/
structure CurationStrategy where
  strategy : String
  keepFull : Nat
  synthesize : Bool
  description : String
deriving DecidableEq, Repr

/-- Embedding of `getCurationStrategy(articleCount)` from gemini.js. -/
def getCurationStrategy (articleCount : Nat) : CurationStrategy :=
  if articleCount ≥ 30 then
    ⟨"heavy", 2, true, "Heavy compression - keep 2-3 best, heavily synthesize rest"⟩
  else if articleCount ≥ 10 then
    ⟨"moderate", 4, true, "Moderate compression - keep 3-4 best, light synthesis"⟩
  else if articleCount ≥ 3 then
    ⟨"light", articleCount - 1, false, "Light curation - keep most articles, minimal synthesis"⟩
  else
    ⟨"passthrough", articleCount, false, "Pass through - too few to synthesize"⟩

/-- The curated-cluster objects returned by `curateMainCluster` and
`curateMiscCluster`; fields absent on a given path are `none`. -/
structure CuratedCluster where
  label : String
  articles : Option (List Article)
  summary : Option String
  originalArticleCount : Option Nat
  curatedContent : Option String
  strategy : Option String
deriving DecidableEq, Repr

/-- Embedding of `curateMainCluster(cluster, clusterLabel)` from gemini.js: passthrough
clusters are returned without consulting the generation service; other
strategies build the prompt and make one `withRetry`-guarded call whose
failure is rethrown. -/
def curateMainCluster (promptTemplate : String)
    (gen : Nat → String → Except String String)
    (cluster : Cluster) (clusterLabel : String) :
    Except String CuratedCluster :=
  let articles := cluster.articles
  let strategy := getCurationStrategy articles.length
  if strategy.strategy = "passthrough" then
    .ok { label := clusterLabel, articles := some articles, summary := none
          originalArticleCount := none, curatedContent := none
          strategy := some strategy.strategy }
  else
    let prompt :=
      ((((promptTemplate.replace "\x7b\x7bCLUSTER_LABEL\x7d\x7d" clusterLabel).replace
          "\x7b\x7bARTICLE_COUNT\x7d\x7d" (toString articles.length)).replace
          "\x7b\x7bSTRATEGY\x7d\x7d" strategy.description).replace
          "\x7b\x7bKEEP_FULL\x7d\x7d" (toString strategy.keepFull)).replace
          "\x7b\x7bARTICLES\x7d\x7d" (formatArticlesForAI articles)
    match withRetry (fun attempt => gen attempt prompt) 3 with
    | .ok result =>
      .ok { label := clusterLabel, articles := none, summary := none
            originalArticleCount := some articles.length
            curatedContent := some result, strategy := some strategy.strategy }
    | .error e => .error e

/-- Embedding of `curateMiscCluster(cluster)` from gemini.js. -/
def curateMiscCluster (promptTemplate : String)
    (gen : Nat → String → Except String String) (cluster : Cluster) :
    Except String CuratedCluster :=
  let articles := cluster.articles
  if articles.length = 0 then
    .ok { label := "Long Tail", articles := some [], summary := none
          originalArticleCount := none, curatedContent := none, strategy := none }
  else if articles.length ≤ 3 then
    .ok { label := "Long Tail", articles := some articles, summary := none
          originalArticleCount := none, curatedContent := none
          strategy := some "passthrough" }
  else
    let prompt :=
      (promptTemplate.replace "\x7b\x7bARTICLE_COUNT\x7d\x7d"
          (toString articles.length)).replace "\x7b\x7bARTICLES\x7d\x7d"
          (formatArticlesForAI articles)
    match withRetry (fun attempt => gen attempt prompt) 3 with
    | .ok result =>
      .ok { label := "Long Tail", articles := none, summary := none
            originalArticleCount := some articles.length
            curatedContent := some result, strategy := some "misc" }
    | .error e => .error e

/-! #### Modelling the generation response for the selection parsers

The selection functions inspect their response text only through
(a) the `/\{[\s\S]*\}/` regex plus `JSON.parse` plus
`parsed.selected || parsed.indices || []`, and (b) the `/\b(\d{1,3})\b/g`
regex.  The response is therefore modelled by the outcome of those two
extractions; the raw text is kept for the reasoning slices. -/

/-- One entry of the parsed `selected`/`indices` array: a JSON number, or a
JSON string carrying its `parseInt` value (`none` models `NaN`, which every
later comparison rejects). -/
inductive JsonIndexVal where
  | num (i : Int)
  | str (v : Option Int)
deriving DecidableEq, Repr

/-- The JSON object recovered by `JSON.parse`, restricted to the fields the
code reads. -/
structure ParsedSelection where
  indices : List JsonIndexVal
  reasoning : Option String
deriving DecidableEq, Repr

/-- Outcome of the `/\{[\s\S]*\}/`-plus-`JSON.parse` step: the regex found
nothing, or parsing threw (caught by the surrounding `try`), or an object
was recovered. -/
inductive JsonPart where
  | noMatch
  | parseError
  | parsed (p : ParsedSelection)
deriving DecidableEq, Repr

/-- A generation response as observed by the selection parsers. -/
structure GenResponseModel where
  json : JsonPart
  numbers : List Nat
  raw : String
deriving DecidableEq, Repr

/-- The `[...allArticles].sort((a, b) => b.wordCount - a.wordCount)` used by
both selection fallbacks (stable descending sort on word count). -/
def sortByWordCountDesc (articles : List Article) : List Article :=
  articles.insertionSort (fun a b => b.wordCount ≤ a.wordCount)

/-- Embedding of `selectBestOfWeek(allArticles)` from gemini.js.  Note that when a JSON
object is recovered the filtered selection is returned unconditionally,
even when it is empty; only a missing or unparseable JSON object reaches
the word-count fallback.  String entries behave like their numeric value
under the JS coercing comparisons and array lookup. -/
def selectBestOfWeek (allArticles : List Article) (resp : GenResponseModel) :
    Selection :=
  if allArticles.length ≤ 5 then
    ⟨allArticles, "All articles included due to small total count"⟩
  else
    match resp.json with
    | .parsed p =>
      let selected := ((p.indices.filterMap (fun v =>
          match v with | .num i => some i | .str v => v)).filter
          (fun i => decide (0 ≤ i ∧ i < (allArticles.length : Int)))).map
          (fun i => allArticles.getD i.toNat default)
      ⟨selected.take 5, p.reasoning.getD resp.raw⟩
    | _ =>
      ⟨(sortByWordCountDesc allArticles).take 5,
        "Fallback selection by article length"⟩

/-! ### src/ai/gemini.js — second generation (cluster summaries and top-N
selection) -/

/-- Embedding of `formatArticle(article, index)` from the second-generation gemini.js. -/
def formatArticle (article : Article) (index : Nat) : String :=
  let links := String.intercalate "\n"
    ((article.links.take 3).map (fun l => "  - [" ++ l.text ++ "](" ++ l.url ++ ")"))
  let primaryLink := (article.links.head?.map (·.url)).getD ""
  "### Article " ++ toString (index + 1) ++ ": " ++ article.subject ++
    "\n**Source:** " ++ article.source ++
    "\n**Date:** " ++ article.dateStr ++
    "\n**Word Count:** " ++ toString article.wordCount ++
    "\n**Primary Link:** " ++ primaryLink ++
    "\n\n" ++ article.content ++ "\n\n" ++
    (if links ≠ "" then "**Additional Links:**\n" ++ links else "")

/-- Embedding of `formatArticleMetadata(article, index)` from the second-generation
gemini.js. -/
def formatArticleMetadata (article : Article) (index : Nat) : String :=
  let preview := (article.content.take 300).replace "\n" " "
  let primaryLink := (article.links.head?.map (·.url)).getD ""
  toString (index + 1) ++ ". \"" ++ article.subject ++ "\" (" ++
    article.source ++ ") - " ++ toString article.wordCount ++ " words\n" ++
    "   Link: " ++ primaryLink ++ "\n   Preview: " ++ preview ++ "..."

/-- The summary records returned by `writeClusterSummary`. -/
structure ClusterSummary where
  label : String
  summary : String
  articleCount : Nat
deriving DecidableEq, Repr

/-- Embedding of `writeClusterSummary(cluster, clusterLabel)` from the second-generation
gemini.js: an isolated call receiving only the given cluster's articles. -/
def writeClusterSummary (promptTemplate : String)
    (gen : Nat → String → Except String String)
    (cluster : Cluster) (clusterLabel : String) :
    Except String ClusterSummary :=
  let articles := cluster.articles
  if articles.length = 0 then
    .ok ⟨clusterLabel, "No articles in this cluster.", 0⟩
  else
    let formattedArticles := String.intercalate "\n\n"
      (articles.enum.map (fun p => formatArticle p.2 p.1))
    let prompt :=
      ((promptTemplate.replace "\x7b\x7bCLUSTER_LABEL\x7d\x7d" clusterLabel).replace
        "\x7b\x7bARTICLE_COUNT\x7d\x7d" (toString articles.length)).replace
        "\x7b\x7bARTICLES\x7d\x7d" formattedArticles
    match withRetry (fun attempt => gen attempt prompt) 3 with
    | .ok result => .ok ⟨clusterLabel, result, articles.length⟩
    | .error e => .error e

/-- The index-normalisation step of `selectTopArticles`'s JSON branch:
`typeof i === 'number' ? (i > allArticles.length ? i - 1 : i) : parseInt(i) - 1`.
A string whose `parseInt` is `NaN` maps to `none` and is dropped by the
range filter, as in JS. -/
def mapJsonIndex (len : Nat) (v : JsonIndexVal) : Option Int :=
  match v with
  | .num i => some (if i > (len : Int) then i - 1 else i)
  | .str v => v.map (fun x => x - 1)

/-- The shared deterministic fallback of `selectTopArticles`. -/
def fallbackByLength (allArticles : List Article) (count : Nat) : Selection :=
  ⟨(sortByWordCountDesc allArticles).take count,
    "Fallback selection by article length"⟩

/-- The bare-integer branch of `selectTopArticles` (`/\b(\d{1,3})\b/g`,
treated as 1-based) followed by the fallback. -/
def numbersOrFallback (allArticles : List Article) (count : Nat)
    (resp : GenResponseModel) : Selection :=
  if resp.numbers.isEmpty then fallbackByLength allArticles count
  else
    let indices := ((resp.numbers.map (fun (n : Nat) => (n : Int) - 1)).filter
      (fun i => decide (0 ≤ i ∧ i < (allArticles.length : Int)))).take count
    if indices.length > 0 then
      ⟨indices.map (fun i => allArticles.getD i.toNat default), resp.raw.take 500⟩
    else fallbackByLength allArticles count

/-- Embedding of `selectTopArticles(allArticles, count)` from the second-generation
gemini.js.  A JSON parse error aborts the whole `try` block, skipping the
bare-integer branch; an empty JSON selection falls through to it. -/
def selectTopArticles (allArticles : List Article) (count : Nat)
    (resp : GenResponseModel) : Selection :=
  if allArticles.length ≤ count then
    ⟨allArticles, "All articles included due to small total count"⟩
  else
    match resp.json with
    | .parseError => fallbackByLength allArticles count
    | .noMatch => numbersOrFallback allArticles count resp
    | .parsed p =>
      let selected := (((p.indices.filterMap
          (mapJsonIndex allArticles.length)).filter
          (fun i => decide (0 ≤ i ∧ i < (allArticles.length : Int)))).take count).map
          (fun i => allArticles.getD i.toNat default)
      if selected.length > 0 then
        ⟨selected, p.reasoning.getD "Selected based on significance and analytical value"⟩
      else numbersOrFallback allArticles count resp

/-! ### Orchestration — the curation step of the first-generation
`run()` (step 8 of src/index.js, curation pipeline) -/

/-- The step-8 curation loop of the first-generation `run()`: each main
cluster is curated in order inside a `try` whose `catch` rethrows a
wrapped error, so the first failing cluster aborts the whole phase; then
the miscellaneous cluster (if any) is curated without a `catch`, so its
failure also propagates.  Only if everything succeeds is the curated pair
produced for the digest step. -/
def curationPhase (tmplMain tmplMisc : String)
    (gen : Nat → String → Except String String)
    (mainClusters : List Cluster) (miscCluster : Option Cluster) :
    Except String (List CuratedCluster × CuratedCluster) := do
  let curatedMain ← mainClusters.foldlM
    (fun (acc : List CuratedCluster) cluster =>
      match curateMainCluster tmplMain gen cluster (cluster.label.getD "") with
      | .ok curated => .ok (acc ++ [curated])
      | .error e =>
        .error ("Failed to curate cluster \"" ++ cluster.label.getD "" ++ "\": " ++ e))
    []
  let curatedMisc ← match miscCluster with
    | some m => curateMiscCluster tmplMisc gen m
    | none =>
      .ok { label := "Long Tail", articles := some [], summary := none
            originalArticleCount := none
            curatedContent := none, strategy := none }
  return (curatedMain, curatedMisc)

/-! ### Orchestration — step 8 of the second-generation `run()`
(src/index.js, summaries pipeline) -/

/-- The per-cluster preparation of step 8 of `run()`: build
`topArticleIds` from the top selection, give each cluster a fresh filtered
copy `{...cluster, articles: clusterArticles}`, and skip clusters left
empty.  The returned list holds exactly the cluster objects passed to
`writeClusterSummary`, in order. -/
def summaryCallInputs (topSelected : List Article) (clusters : List Cluster) :
    List Cluster :=
  let topArticleIds := topSelected.map (·.id)
  clusters.filterMap (fun cluster =>
    let clusterArts : List Article := cluster.articles.filter
      (fun a => ! topArticleIds.contains a.id)
    if clusterArts.length = 0 then (none : Option Cluster)
    else some { cluster with articles := clusterArts })

/-- The full step-8 loop of the second-generation `run()`: write a summary
for each filtered cluster, catching and skipping per-cluster failures
(unlike the curation phase, which rethrows). -/
def summaryPhase (promptTemplate : String)
    (gen : Nat → String → Except String String)
    (topSelected : List Article) (clusters : List Cluster) :
    List ClusterSummary :=
  (summaryCallInputs topSelected clusters).filterMap (fun c =>
    (writeClusterSummary promptTemplate gen c (c.label.getD "")).toOption)

/-! ### Order instances for the sort comparators -/

instance : IsTotal SizedCluster (fun a b => b.size ≤ a.size) :=
  ⟨fun a b => le_total b.size a.size⟩

instance : IsTrans SizedCluster (fun a b => b.size ≤ a.size) :=
  ⟨fun _ _ _ h1 h2 => le_trans h2 h1⟩

instance : IsTotal Article (fun a b => b.wordCount ≤ a.wordCount) :=
  ⟨fun a b => le_total b.wordCount a.wordCount⟩

instance : IsTrans Article (fun a b => b.wordCount ≤ a.wordCount) :=
  ⟨fun _ _ _ h1 h2 => le_trans h2 h1⟩

/-! ### Concrete sample inputs used by witnesses and counterexamples -/

/-- A minimal concrete article. -/
def mkArt (id : String) (wordCount : Nat) : Article :=
  ⟨id, "src", "subject " ++ id, "content " ++ id, wordCount, "1/1/2025", []⟩

/-- Four embedded articles used to exercise the general clustering path. -/
def sampleEmbedded4 : List EmbeddedArticle :=
  [⟨mkArt "a" 10, [1]⟩, ⟨mkArt "b" 20, [1]⟩, ⟨mkArt "c" 30, [1]⟩, ⟨mkArt "d" 40, [1]⟩]

/-- A kmeans stub assigning the first two data points the label 1 and the
rest the label 0; on the four sample points this yields the assignments
1, 1, 0, 0 — two clusters of equal size, with label 1 seen first. -/
def kmeansStub : List Vec → Nat → KmeansResult :=
  fun data _ =>
    ⟨(List.range data.length).map (fun i => if i < 2 then 1 else 0), [[2], [3]]⟩

/-- Six concrete articles (a pool large enough that `selectBestOfWeek`
does not take its small-pool early return). -/
def samplePool6 : List Article :=
  [mkArt "a" 60, mkArt "b" 50, mkArt "c" 40, mkArt "d" 30, mkArt "e" 20, mkArt "f" 10]

/-! ### Supporting lemmas -/

theorem withRetryAux_ok (fn : Nat → Except ε α) :
    ∀ (n start : Nat) (e0 : ε) (v : α), withRetryAux fn e0 n start = .ok v →
      ∃ i, i < n ∧ fn (start + i) = .ok v := by
  intro n
  induction n with
  | zero => intro start e0 v h; simp [withRetryAux] at h
  | succ m ih =>
    intro start e0 v h
    rw [withRetryAux] at h
    cases hf : fn start with
    | ok w =>
      rw [hf] at h
      exact ⟨0, Nat.succ_pos m, by rw [Nat.add_zero, hf]; exact h⟩
    | error e =>
      rw [hf] at h
      obtain ⟨i, hi, hok⟩ := ih (start + 1) e v h
      exact ⟨i + 1, by omega, by rw [← hok]; ring_nf⟩

theorem chunk_flatten_aux (size : Nat) (hn : size ≠ 0) :
    ∀ (n : Nat) (l : List α), l.length ≤ n → (chunk l size).flatten = l := by
  intro n
  induction n with
  | zero =>
    intro l hl
    cases l with
    | nil => simp [chunk]
    | cons x xs => simp at hl
  | succ m ih =>
    intro l hl
    cases l with
    | nil => simp [chunk]
    | cons x xs =>
      rw [chunk]
      simp only [hn, if_false]
      rw [List.flatten_cons, ih ((x :: xs).drop size) (by simp at hl ⊢; omega),
        List.take_append_drop]

/-- Splitting a list into chunks and flattening recovers the list. -/
theorem chunk_flatten (size : Nat) (hn : size ≠ 0) (l : List α) :
    (chunk l size).flatten = l :=
  chunk_flatten_aux size hn l.length l le_rfl

theorem chunk_ne_nil_aux (size : Nat) (hn : size ≠ 0) :
    ∀ (n : Nat) (l : List α), l.length ≤ n → ∀ b ∈ chunk l size, b ≠ [] := by
  intro n
  induction n with
  | zero =>
    intro l hl
    cases l with
    | nil => simp [chunk]
    | cons x xs => simp at hl
  | succ m ih =>
    intro l hl
    cases l with
    | nil => simp [chunk]
    | cons x xs =>
      rw [chunk]
      simp only [hn, if_false]
      intro b hb
      rcases List.mem_cons.mp hb with h | h
      · subst h
        cases size with
        | zero => exact absurd rfl hn
        | succ s => simp
      · exact ih ((x :: xs).drop size) (by simp at hl ⊢; omega) b h

/-- Every chunk of a list is non-empty. -/
theorem chunk_ne_nil (size : Nat) (hn : size ≠ 0) (l : List α) :
    ∀ b ∈ chunk l size, b ≠ [] :=
  chunk_ne_nil_aux size hn l.length l le_rfl

/-- The accumulator of the `generateEmbeddings` batch loop, split into the
per-batch contributions. -/
theorem embedFold_eq (svc : Nat → List String → Except String (List Vec)) :
    ∀ (batches : List (List Article)) (acc : List EmbeddedArticle × List String),
      batches.foldl
        (fun (acc : List EmbeddedArticle × List String) batch =>
          match batchOutcome svc batch with
          | .ok embeddings => (acc.1 ++ pairBatch batch embeddings, acc.2)
          | .error _ => (acc.1, acc.2 ++ batch.map (·.id))) acc =
      (acc.1 ++ batches.flatMap (fun batch =>
          match batchOutcome svc batch with
          | .ok embeddings => pairBatch batch embeddings
          | .error _ => []),
        acc.2 ++ batches.flatMap (fun batch =>
          match batchOutcome svc batch with
          | .ok _ => []
          | .error _ => batch.map (·.id))) := by
  intro batches
  induction batches with
  | nil => intro acc; simp
  | cons b bs ih =>
    intro acc
    rw [List.foldl_cons, List.flatMap_cons, List.flatMap_cons]
    cases h : batchOutcome svc b with
    | ok embeddings => simp only [h, ih]; simp
    | error e => simp only [h, ih]; simp

/-- Congruence for `flatMap` under a pointwise-equal function. -/
theorem flatMap_congr_fn {l : List α} {f g : α → List β}
    (h : ∀ x ∈ l, f x = g x) : l.flatMap f = l.flatMap g := by
  induction l with
  | nil => rfl
  | cons x xs ih =>
    rw [List.flatMap_cons, List.flatMap_cons, h x (by simp),
      ih (fun y hy => h y (by simp [hy]))]

/-- A successful `batchOutcome` comes from a successful service call within
the retry cap, so the service contract gives one vector per batch member. -/
theorem batchOutcome_ok_length
    (svc : Nat → List String → Except String (List Vec))
    (hsvc : ∀ attempt texts embs, svc attempt texts = .ok embs →
      embs.length = texts.length)
    (batch : List Article) (embeddings : List Vec)
    (hb : batchOutcome svc batch = .ok embeddings) :
    embeddings.length = batch.length := by
  obtain ⟨i, _, hi⟩ := withRetryAux_ok
    (fun attempt => svc attempt (batch.map prepareText)) 3 0 default embeddings hb
  simpa using hsvc (0 + i) (batch.map prepareText) embeddings hi

/-- On equal lengths, the indexed pairing loop is `zipWith`. -/
theorem pairBatch_eq_zipWith (batch : List Article) (embeddings : List Vec)
    (hlen : embeddings.length = batch.length) :
    pairBatch batch embeddings =
      List.zipWith (fun a v => EmbeddedArticle.mk a v) batch embeddings := by
  unfold pairBatch
  apply List.ext_getElem
  · simp [hlen]
  · intro n h1 h2
    have hn : n < batch.length := by simpa using h1
    have hn2 : n < embeddings.length := by omega
    simp [List.getD_eq_getElem?_getD, List.getElem?_eq_getElem, hn, hn2]

theorem zipWith_mk_map_article :
    ∀ (batch : List Article) (embeddings : List Vec),
      embeddings.length = batch.length →
      (List.zipWith (fun a v => EmbeddedArticle.mk a v) batch embeddings).map
        (·.article) = batch := by
  intro batch
  induction batch with
  | nil => simp
  | cons x xs ih =>
    intro embeddings hlen
    cases embeddings with
    | nil => simp at hlen
    | cons v vs =>
      simp only [List.length_cons] at hlen
      simp only [List.zipWith_cons_cons, List.map_cons]
      rw [ih vs (by omega)]

/-- Unfolding of `generateEmbeddings` with the per-batch contributions exposed. -/
theorem generateEmbeddings_eq
    (svc : Nat → List String → Except String (List Vec))
    (articles : List Article) :
    generateEmbeddings svc articles =
      (if ((chunk articles BATCH_SIZE).flatMap (fun batch =>
          match batchOutcome svc batch with
          | .ok embeddings => pairBatch batch embeddings
          | .error _ => [])).isEmpty
        then .error "Failed to generate any embeddings"
        else .ok
          ((chunk articles BATCH_SIZE).flatMap (fun batch =>
            match batchOutcome svc batch with
            | .ok embeddings => pairBatch batch embeddings
            | .error _ => []),
           (chunk articles BATCH_SIZE).flatMap (fun batch =>
            match batchOutcome svc batch with
            | .ok _ => []
            | .error _ => batch.map (·.id)))) := by
  simp only [generateEmbeddings]
  rw [embedFold_eq]
  simp

/-- C7: embedding failure is batch-granular and total failure is fatal:
assuming the embedding service's contract (one vector per input text on
success), `generateEmbeddings` (1) pairs every article of every successful
batch with its vector, in order, and collects the ids of every article of
every failed batch; (2) drops no article silently: every input article
either appears embedded in the results or has its id in the failed list;
and (3) errors exactly when no batch succeeds within the retry cap. -/
theorem claim_C7 (svc : Nat → List String → Except String (List Vec))
    (articles : List Article)
    (hsvc : ∀ attempt texts embs, svc attempt texts = .ok embs →
      embs.length = texts.length) :
    (∀ res, generateEmbeddings svc articles = .ok res →
        res.1 = (chunk articles BATCH_SIZE).flatMap (fun batch =>
            match batchOutcome svc batch with
            | .ok embeddings =>
              List.zipWith (fun a v => EmbeddedArticle.mk a v) batch embeddings
            | .error _ => [])
        ∧ res.2 = (chunk articles BATCH_SIZE).flatMap (fun batch =>
            match batchOutcome svc batch with
            | .ok _ => []
            | .error _ => batch.map (·.id))
        ∧ ∀ a ∈ articles, (∃ ea ∈ res.1, ea.article = a) ∨ a.id ∈ res.2)
    ∧ ((∃ e, generateEmbeddings svc articles = .error e) ↔
        ∀ batch ∈ chunk articles BATCH_SIZE,
          ∃ msg, batchOutcome svc batch = .error msg) := by
  have hflatok : ∀ batch ∈ chunk articles BATCH_SIZE,
      (match batchOutcome svc batch with
        | .ok embeddings => pairBatch batch embeddings
        | .error _ => ([] : List EmbeddedArticle)) =
      (match batchOutcome svc batch with
        | .ok embeddings =>
          List.zipWith (fun a v => EmbeddedArticle.mk a v) batch embeddings
        | .error _ => []) := by
    intro batch _
    cases hb : batchOutcome svc batch with
    | ok embeddings =>
      simp [pairBatch_eq_zipWith batch embeddings
        (batchOutcome_ok_length svc hsvc batch embeddings hb)]
    | error e => simp
  constructor
  · intro res hok
    rw [generateEmbeddings_eq] at hok
    split at hok
    · exact absurd hok (by simp)
    · injection hok with hok
      subst hok
      refine ⟨flatMap_congr_fn hflatok, rfl, ?_⟩
      intro a ha
      have hmem : a ∈ (chunk articles BATCH_SIZE).flatten := by
        rw [chunk_flatten BATCH_SIZE (by decide)]; exact ha
      obtain ⟨batch, hbatch, habatch⟩ := List.mem_flatten.mp hmem
      cases hb : batchOutcome svc batch with
      | ok embeddings =>
        left
        have hlen := batchOutcome_ok_length svc hsvc batch embeddings hb
        have hmap := zipWith_mk_map_article batch embeddings hlen
        rw [← hmap] at habatch
        obtain ⟨ea, hea, heaa⟩ := List.mem_map.mp habatch
        refine ⟨ea, ?_, heaa⟩
        apply List.mem_flatMap.mpr
        refine ⟨batch, hbatch, ?_⟩
        rw [hb]
        show ea ∈ pairBatch batch embeddings
        rw [pairBatch_eq_zipWith batch embeddings hlen]
        exact hea
      | error e =>
        right
        apply List.mem_flatMap.mpr
        refine ⟨batch, hbatch, ?_⟩
        rw [hb]
        show a.id ∈ batch.map (·.id)
        exact List.mem_map.mpr ⟨a, habatch, rfl⟩
  · constructor
    · rintro ⟨e, he⟩ batch hbatch
      rw [generateEmbeddings_eq] at he
      split at he
      case isTrue hempty =>
        cases hb : batchOutcome svc batch with
        | ok embeddings =>
          exfalso
          have hlen := batchOutcome_ok_length svc hsvc batch embeddings hb
          have hbne : batch ≠ [] :=
            chunk_ne_nil BATCH_SIZE (by decide) articles batch hbatch
          rw [List.isEmpty_iff, List.flatMap_eq_nil_iff] at hempty
          have hnil := hempty batch hbatch
          rw [hb] at hnil
          simp only at hnil
          rw [pairBatch_eq_zipWith batch embeddings hlen] at hnil
          cases batch with
          | nil => exact hbne rfl
          | cons x xs =>
            cases embeddings with
            | nil => simp at hlen
            | cons v vs => simp at hnil
        | error e2 => exact ⟨e2, rfl⟩
      case isFalse => exact absurd he (by simp)
    · intro hall
      rw [generateEmbeddings_eq]
      have hempty : ((chunk articles BATCH_SIZE).flatMap (fun batch =>
          match batchOutcome svc batch with
          | .ok embeddings => pairBatch batch embeddings
          | .error _ => [])).isEmpty := by
        rw [List.isEmpty_iff, List.flatMap_eq_nil_iff]
        intro batch hbatch
        obtain ⟨msg, hmsg⟩ := hall batch hbatch
        rw [hmsg]
      rw [if_pos hempty]
      exact ⟨_, rfl⟩

/-- Witness for C7 at a concrete service and article list. -/
theorem claim_C7_witness :
    ∃ e, generateEmbeddings (fun _ _ => .error "boom") [mkArt "a" 1] = .error e :=
  ((claim_C7 (fun _ _ => .error "boom") [mkArt "a" 1]
      (fun _ _ _ h => Except.noConfusion h)).2).mpr
    (fun _ _ => ⟨"boom", rfl⟩)

/-- The flattened member articles of the grouping association list grow by
exactly the inserted article (as a multiset). -/
theorem insertGroup_flatten_perm (gs : List (Nat × List Article)) (key : Nat)
    (a : Article) :
    ((insertGroup gs key a).map (·.2)).flatten.Perm
      (((gs.map (·.2)).flatten) ++ [a]) := by
  induction gs with
  | nil => simp [insertGroup]
  | cons g gs ih =>
    rw [insertGroup]
    by_cases h : g.1 = key
    · rw [if_pos h]
      simp only [List.map_cons, List.flatten_cons, List.append_assoc]
      exact List.Perm.append_left g.2 (List.perm_append_comm)
    · rw [if_neg h]
      simp only [List.map_cons, List.flatten_cons, List.append_assoc]
      exact List.Perm.append_left g.2 ih

/-- The grouping fold of `clusterArticles` preserves the articles as a
multiset. -/
theorem foldl_insertGroup_flatten_perm :
    ∀ (ps : List (Nat × Article)) (gs : List (Nat × List Article)),
      (((ps.foldl (fun groups p => insertGroup groups p.1 p.2) gs).map
          (·.2)).flatten).Perm
        (((gs.map (·.2)).flatten) ++ ps.map (·.2)) := by
  intro ps
  induction ps with
  | nil => simp
  | cons p ps ih =>
    intro gs
    rw [List.foldl_cons]
    refine (ih (insertGroup gs p.1 p.2)).trans ?_
    rw [List.map_cons]
    refine ((insertGroup_flatten_perm gs p.1 p.2).append_right _).trans ?_
    rw [List.append_assoc]
    exact List.Perm.append_left _ (by simp [List.singleton_append])

/-- Grouping is a partition: `buildGroups` flattened back out gives
exactly the input articles (as a multiset). -/
theorem buildGroups_flatten_perm (embedded : List EmbeddedArticle)
    (assignments : List Nat)
    (hlen : assignments.length = embedded.length) :
    (((buildGroups embedded assignments).map (·.2)).flatten).Perm
      (embedded.map (·.article)) := by
  unfold buildGroups
  refine (foldl_insertGroup_flatten_perm _ []).trans ?_
  simp only [List.map_nil, List.flatten_nil, List.nil_append]
  rw [List.map_snd_zip]
  simp [hlen]

theorem toSizedClusters_map_articles (groups : List (Nat × List Article))
    (centroids : List Vec) :
    (toSizedClusters groups centroids).map (·.articles) = groups.map (·.2) := by
  simp [toSizedClusters]

theorem indexClusters_map_articles (l : List SizedCluster) :
    (indexClusters l).map (·.articles) = l.map (·.articles) := by
  unfold indexClusters
  rw [List.map_map]
  have : ((fun c : Cluster => c.articles) ∘ fun p : Nat × SizedCluster =>
      ({ id := p.1, originalId := some p.2.originalId, articles := p.2.articles,
         centroid := some p.2.centroid,
         type := if p.1 < MAIN_CLUSTER_THRESHOLD then "main" else "miscellaneous",
         size := some p.2.size, label := none } : Cluster)) =
      (fun c : SizedCluster => c.articles) ∘ Prod.snd := rfl
  rw [this, ← List.map_map, List.enum_map_snd]

theorem indexClusters_map_id (l : List SizedCluster) :
    (indexClusters l).map (·.id) = List.range l.length := by
  unfold indexClusters
  rw [List.map_map]
  have : ((fun c : Cluster => c.id) ∘ fun p : Nat × SizedCluster =>
      ({ id := p.1, originalId := some p.2.originalId, articles := p.2.articles,
         centroid := some p.2.centroid,
         type := if p.1 < MAIN_CLUSTER_THRESHOLD then "main" else "miscellaneous",
         size := some p.2.size, label := none } : Cluster)) =
      Prod.fst := rfl
  rw [this, List.enum_map_fst]

/-- C2: partition invariant: for every embedded article list and every `k`,
assuming the kmeans library's contract (one assignment label per data
point), the multiset union of the articles of the clusters returned by
`clusterArticles` is exactly the input articles — every input article lands
in exactly one cluster exactly once, none duplicated, none dropped. -/
theorem claim_C2 (sqrt : ℚ → ℚ) (km : List Vec → Nat → KmeansResult)
    (embedded : List EmbeddedArticle) (k : Nat)
    (hkm : ∀ data kk, ((km data kk).clusters).length = data.length) :
    (((clusterArticles sqrt km embedded k).clusters.map (·.articles)).flatten).Perm
      (embedded.map (·.article)) := by
  unfold clusterArticles
  by_cases h0 : embedded.length = 0
  · rw [if_pos h0]
    rw [List.length_eq_zero] at h0
    subst h0
    simp
  · rw [if_neg h0]
    by_cases hk : embedded.length ≤ k
    · rw [if_pos hk]
      simp only [List.map_map]
      have : ((fun c : Cluster => c.articles) ∘ fun p : Nat × EmbeddedArticle =>
          ({ id := p.1, originalId := none, articles := [p.2.article],
             centroid := some p.2.embedding,
             type := if p.1 < MAIN_CLUSTER_THRESHOLD then "main" else "miscellaneous",
             size := none, label := none } : Cluster)) =
          (fun e : EmbeddedArticle => [e.article]) ∘ Prod.snd := rfl
      rw [this, ← List.map_map, List.enum_map_snd]
      have hsingle : ∀ l : List EmbeddedArticle,
          ((l.map (fun e => [e.article])).flatten) = l.map (·.article) := by
        intro l
        induction l with
        | nil => rfl
        | cons x xs ih => simp [ih]
      rw [hsingle]
    · rw [if_neg hk]
      simp only
      rw [indexClusters_map_articles]
      refine (List.Perm.flatten (List.Perm.map _ (List.perm_insertionSort _ _))).trans ?_
      rw [toSizedClusters_map_articles]
      exact buildGroups_flatten_perm embedded _ (by rw [hkm]; simp)

/-- Witness for C2 on the concrete four-article input and kmeans stub. -/
theorem claim_C2_witness :
    (((clusterArticles id kmeansStub sampleEmbedded4 2).clusters.map
        (·.articles)).flatten).Perm (sampleEmbedded4.map (·.article)) :=
  claim_C2 id kmeansStub sampleEmbedded4 2 (fun _ _ => by simp [kmeansStub])

/-- C3: degenerate clustering: whenever the embedded list has at most `k`
elements, `clusterArticles` returns one singleton cluster per article in
input order (so nothing is duplicated or omitted), numbered `0..n-1`, typed
"main" below `MAIN_CLUSTER_THRESHOLD` and "miscellaneous" from it on, with
assignments `[0..n-1]`; in particular the empty list yields no clusters. -/
theorem claim_C3 (sqrt : ℚ → ℚ) (km : List Vec → Nat → KmeansResult)
    (embedded : List EmbeddedArticle) (k : Nat)
    (hk : embedded.length ≤ k) :
    (clusterArticles sqrt km embedded k).clusters.length = embedded.length
    ∧ (clusterArticles sqrt km embedded k).clusters.map (·.articles)
        = embedded.map (fun e => [e.article])
    ∧ (clusterArticles sqrt km embedded k).clusters.map (·.id)
        = List.range embedded.length
    ∧ (clusterArticles sqrt km embedded k).clusters.map (·.type)
        = (List.range embedded.length).map
            (fun i => if i < MAIN_CLUSTER_THRESHOLD then "main" else "miscellaneous")
    ∧ ((clusterArticles sqrt km embedded k).clusters.map (·.articles)).flatten
        = embedded.map (·.article)
    ∧ (clusterArticles sqrt km embedded k).assignments
        = List.range embedded.length := by
  have hmain : clusterArticles sqrt km embedded k =
      { clusters := embedded.enum.map (fun p =>
          { id := p.1
            originalId := none
            articles := [p.2.article]
            centroid := some p.2.embedding
            type := if p.1 < MAIN_CLUSTER_THRESHOLD then "main" else "miscellaneous"
            size := none
            label := none })
        assignments := List.range embedded.length } := by
    unfold clusterArticles
    by_cases h0 : embedded.length = 0
    · rw [if_pos h0]
      rw [List.length_eq_zero] at h0
      subst h0
      simp
    · rw [if_neg h0, if_pos hk]
  rw [hmain]
  have harts : (embedded.enum.map (fun p =>
      ({ id := p.1, originalId := none, articles := [p.2.article],
         centroid := some p.2.embedding,
         type := if p.1 < MAIN_CLUSTER_THRESHOLD then "main" else "miscellaneous",
         size := none, label := none } : Cluster))).map (·.articles)
      = embedded.map (fun e => [e.article]) := by
    rw [List.map_map]
    have : ((fun c : Cluster => c.articles) ∘ fun p : Nat × EmbeddedArticle =>
        ({ id := p.1, originalId := none, articles := [p.2.article],
           centroid := some p.2.embedding,
           type := if p.1 < MAIN_CLUSTER_THRESHOLD then "main" else "miscellaneous",
           size := none, label := none } : Cluster)) =
        (fun e : EmbeddedArticle => [e.article]) ∘ Prod.snd := rfl
    rw [this, ← List.map_map, List.enum_map_snd]
  have hids : (embedded.enum.map (fun p =>
      ({ id := p.1, originalId := none, articles := [p.2.article],
         centroid := some p.2.embedding,
         type := if p.1 < MAIN_CLUSTER_THRESHOLD then "main" else "miscellaneous",
         size := none, label := none } : Cluster))).map (·.id)
      = List.range embedded.length := by
    rw [List.map_map]
    have : ((fun c : Cluster => c.id) ∘ fun p : Nat × EmbeddedArticle =>
        ({ id := p.1, originalId := none, articles := [p.2.article],
           centroid := some p.2.embedding,
           type := if p.1 < MAIN_CLUSTER_THRESHOLD then "main" else "miscellaneous",
           size := none, label := none } : Cluster)) = Prod.fst := rfl
    rw [this, List.enum_map_fst]
  have htypes : (embedded.enum.map (fun p =>
      ({ id := p.1, originalId := none, articles := [p.2.article],
         centroid := some p.2.embedding,
         type := if p.1 < MAIN_CLUSTER_THRESHOLD then "main" else "miscellaneous",
         size := none, label := none } : Cluster))).map (·.type)
      = (List.range embedded.length).map
          (fun i => if i < MAIN_CLUSTER_THRESHOLD then "main" else "miscellaneous") := by
    rw [List.map_map]
    have : ((fun c : Cluster => c.type) ∘ fun p : Nat × EmbeddedArticle =>
        ({ id := p.1, originalId := none, articles := [p.2.article],
           centroid := some p.2.embedding,
           type := if p.1 < MAIN_CLUSTER_THRESHOLD then "main" else "miscellaneous",
           size := none, label := none } : Cluster)) =
        (fun i => if i < MAIN_CLUSTER_THRESHOLD then "main" else "miscellaneous")
          ∘ Prod.fst := rfl
    rw [this, ← List.map_map, List.enum_map_fst]
  have hflat : ∀ l : List EmbeddedArticle,
      ((l.map (fun e => [e.article])).flatten) = l.map (·.article) := by
    intro l
    induction l with
    | nil => rfl
    | cons x xs ih => simp [ih]
  refine ⟨by simp, harts, hids, htypes, ?_, rfl⟩
  simp only [harts]
  exact hflat embedded

/-- Witness for C3 on a concrete two-article input with `k = 8`. -/
theorem claim_C3_witness :
    (clusterArticles id kmeansStub [⟨mkArt "a" 1, [1]⟩, ⟨mkArt "b" 2, [2]⟩]
        8).clusters.map (·.articles)
      = [[mkArt "a" 1], [mkArt "b" 2]] :=
  (claim_C3 id kmeansStub [⟨mkArt "a" 1, [1]⟩, ⟨mkArt "b" 2, [2]⟩] 8
    (by decide)).2.1

/-- Inserting a cluster of size `s` commutes with filtering on size `s`:
the skipped prefix consists of strictly larger clusters. -/
theorem filter_orderedInsert_size_pos (s : Nat) (x : SizedCluster)
    (hx : x.size = s) :
    ∀ l : List SizedCluster,
      (List.orderedInsert (fun a b => b.size ≤ a.size) x l).filter
          (fun c => decide (c.size = s)) =
        x :: l.filter (fun c => decide (c.size = s)) := by
  intro l
  induction l with
  | nil => simp [hx]
  | cons y ys ih =>
    rw [List.orderedInsert]
    by_cases h : y.size ≤ x.size
    · rw [if_pos h]
      simp [hx]
    · rw [if_neg h]
      have hy : y.size ≠ s := by omega
      rw [List.filter_cons, List.filter_cons]
      simp only [hy, decide_eq_true_eq, if_neg, ih]
      simp [hy]

/-- Inserting a cluster of a different size leaves the size-`s` filter
unchanged. -/
theorem filter_orderedInsert_size_neg (s : Nat) (x : SizedCluster)
    (hx : x.size ≠ s) :
    ∀ l : List SizedCluster,
      (List.orderedInsert (fun a b => b.size ≤ a.size) x l).filter
          (fun c => decide (c.size = s)) =
        l.filter (fun c => decide (c.size = s)) := by
  intro l
  induction l with
  | nil => simp [hx]
  | cons y ys ih =>
    rw [List.orderedInsert]
    by_cases h : y.size ≤ x.size
    · rw [if_pos h]
      rw [List.filter_cons, List.filter_cons]
      simp [hx]
    · rw [if_neg h]
      rw [List.filter_cons, List.filter_cons]
      by_cases hy : y.size = s
      · simp [hy, ih]
      · simp [hy, ih]

/-- Stability of the descending-size sort: for any size `s`, the
subsequence of clusters of size `s` is preserved, so ties keep their
pre-sort (first-appearance) order. -/
theorem filter_sortBySizeDesc (s : Nat) :
    ∀ l : List SizedCluster,
      (sortBySizeDesc l).filter (fun c => decide (c.size = s)) =
        l.filter (fun c => decide (c.size = s)) := by
  intro l
  induction l with
  | nil => rfl
  | cons x xs ih =>
    show (List.orderedInsert _ x (List.insertionSort _ xs)).filter _ = _
    have ih' : (List.insertionSort (fun a b : SizedCluster => b.size ≤ a.size)
        xs).filter (fun c => decide (c.size = s)) =
        xs.filter (fun c => decide (c.size = s)) := ih
    by_cases hx : x.size = s
    · rw [filter_orderedInsert_size_pos s x hx, ih', List.filter_cons]
      simp [hx]
    · rw [filter_orderedInsert_size_neg s x hx, ih', List.filter_cons]
      simp [hx]

/-- The sorted cluster list is weakly decreasing in size. -/
theorem sortBySizeDesc_sorted (l : List SizedCluster) :
    List.Sorted (fun a b => b ≤ a) ((sortBySizeDesc l).map (·.size)) := by
  have h := List.sorted_insertionSort (fun a b : SizedCluster => b.size ≤ a.size) l
  exact List.Pairwise.map _ (fun a b hab => hab) h

/-- C9 (amended): on the general path (`n > k`), `clusterArticles` builds
the first-appearance groups from the kmeans assignments, sorts them by
descending member count with ties kept in first-appearance order (the
stable-sort guarantee of `Array.prototype.sort`), and re-indexes the result
`0..m-1` in that order.  Tie-breaking by ascending original partition label,
as the spec states it, does not hold (see the counterexample). -/
theorem claim_C9 (sqrt : ℚ → ℚ) (km : List Vec → Nat → KmeansResult)
    (embedded : List EmbeddedArticle) (k : Nat)
    (hk : k < embedded.length) (h0 : embedded.length ≠ 0) :
    (clusterArticles sqrt km embedded k).clusters =
      indexClusters (sortBySizeDesc (toSizedClusters
        (buildGroups embedded
          ((km (embedded.map (fun item => normalizeVector sqrt item.embedding)) k).clusters))
        ((km (embedded.map (fun item => normalizeVector sqrt item.embedding)) k).centroids)))
    ∧ (clusterArticles sqrt km embedded k).clusters.map (·.id) =
        List.range (clusterArticles sqrt km embedded k).clusters.length
    ∧ List.Sorted (fun a b => b ≤ a)
        ((sortBySizeDesc (toSizedClusters
          (buildGroups embedded
            ((km (embedded.map (fun item => normalizeVector sqrt item.embedding)) k).clusters))
          ((km (embedded.map (fun item => normalizeVector sqrt item.embedding)) k).centroids))).map
          (·.size))
    ∧ ∀ s : Nat,
        (sortBySizeDesc (toSizedClusters
          (buildGroups embedded
            ((km (embedded.map (fun item => normalizeVector sqrt item.embedding)) k).clusters))
          ((km (embedded.map (fun item => normalizeVector sqrt item.embedding)) k).centroids))).filter
            (fun c => decide (c.size = s)) =
        (toSizedClusters
          (buildGroups embedded
            ((km (embedded.map (fun item => normalizeVector sqrt item.embedding)) k).clusters))
          ((km (embedded.map (fun item => normalizeVector sqrt item.embedding)) k).centroids)).filter
            (fun c => decide (c.size = s)) := by
  have hbranch : clusterArticles sqrt km embedded k =
      ⟨indexClusters (sortBySizeDesc (toSizedClusters
          (buildGroups embedded
            ((km (embedded.map (fun item => normalizeVector sqrt item.embedding)) k).clusters))
          ((km (embedded.map (fun item => normalizeVector sqrt item.embedding)) k).centroids))),
        (km (embedded.map (fun item => normalizeVector sqrt item.embedding)) k).clusters⟩ := by
    unfold clusterArticles
    rw [if_neg h0, if_neg (by omega)]
  refine ⟨by rw [hbranch], ?_, sortBySizeDesc_sorted _, fun s => filter_sortBySizeDesc s _⟩
  rw [hbranch]
  simp only
  rw [indexClusters_map_id]
  congr 1
  unfold indexClusters
  simp

/-- Witness for C9 on the concrete four-article input and kmeans stub. -/
theorem claim_C9_witness :
    (clusterArticles id kmeansStub sampleEmbedded4 2).clusters.map (·.id) =
      List.range (clusterArticles id kmeansStub sampleEmbedded4 2).clusters.length :=
  (claim_C9 id kmeansStub sampleEmbedded4 2 (by decide) (by decide)).2.1

/-- Counterexample to C9 as stated: on four articles assigned the labels
1, 1, 0, 0 the two resulting clusters have equal size 2, yet the output
keeps label 1 first (first-appearance order); sorting ties by ascending
original partition label would put label 0 first, so the claimed ordering
relation fails on this output. -/
theorem claim_C9_cex :
    (clusterArticles id kmeansStub sampleEmbedded4 2).clusters.map (·.size)
        = [some 2, some 2]
    ∧ (clusterArticles id kmeansStub sampleEmbedded4 2).clusters.map (·.originalId)
        = [some 1, some 0]
    ∧ ¬ List.Pairwise
        (fun a b : Cluster => b.size.getD 0 < a.size.getD 0 ∨
          (a.size = b.size ∧ a.originalId.getD 0 < b.originalId.getD 0))
        (clusterArticles id kmeansStub sampleEmbedded4 2).clusters := by
  refine ⟨?_, ?_, ?_⟩ <;> decide

/-- C4: the curation strategy is a pure function of the article count with
exact boundaries — `count ≥ 30` is "heavy" (keep 2, synthesize),
`10 ≤ count ≤ 29` is "moderate" (keep 4, synthesize), `3 ≤ count ≤ 9` is
"light" (keep `count - 1`, no synthesis), and `count < 3` is "passthrough",
in which case `curateMainCluster` returns without consulting the generation
service (its result does not depend on the service at all). -/
theorem claim_C4 (count : Nat) :
    (30 ≤ count →
      (getCurationStrategy count).strategy = "heavy"
      ∧ (getCurationStrategy count).keepFull = 2
      ∧ (getCurationStrategy count).synthesize = true)
    ∧ (10 ≤ count → count ≤ 29 →
      (getCurationStrategy count).strategy = "moderate"
      ∧ (getCurationStrategy count).keepFull = 4
      ∧ (getCurationStrategy count).synthesize = true)
    ∧ (3 ≤ count → count ≤ 9 →
      (getCurationStrategy count).strategy = "light"
      ∧ (getCurationStrategy count).keepFull = count - 1
      ∧ (getCurationStrategy count).synthesize = false)
    ∧ (count < 3 →
      (getCurationStrategy count).strategy = "passthrough"
      ∧ ∀ (tmpl : String) (gen gen' : Nat → String → Except String String)
          (cluster : Cluster) (label : String),
          cluster.articles.length = count →
          curateMainCluster tmpl gen cluster label =
            curateMainCluster tmpl gen' cluster label) := by
  refine ⟨?_, ?_, ?_, ?_⟩
  · intro h
    unfold getCurationStrategy
    rw [if_pos h]
    exact ⟨rfl, rfl, rfl⟩
  · intro h1 h2
    unfold getCurationStrategy
    rw [if_neg (by omega), if_pos h1]
    exact ⟨rfl, rfl, rfl⟩
  · intro h1 h2
    unfold getCurationStrategy
    rw [if_neg (by omega), if_neg (by omega), if_pos h1]
    exact ⟨rfl, rfl, rfl⟩
  · intro h
    have hpass : getCurationStrategy count =
        ⟨"passthrough", count, false, "Pass through - too few to synthesize"⟩ := by
      unfold getCurationStrategy
      rw [if_neg (by omega), if_neg (by omega), if_neg (by omega)]
    refine ⟨by rw [hpass], ?_⟩
    intro tmpl gen gen' cluster label hcount
    simp only [curateMainCluster]
    rw [hcount, hpass]
    simp

/-- Witness for C4 at the boundary counts 2, 3, 9, 10, 29, 30. -/
theorem claim_C4_witness :
    (getCurationStrategy 30).strategy = "heavy"
    ∧ (getCurationStrategy 29).strategy = "moderate"
    ∧ (getCurationStrategy 10).strategy = "moderate"
    ∧ (getCurationStrategy 9).strategy = "light"
    ∧ (getCurationStrategy 3).strategy = "light"
    ∧ (getCurationStrategy 2).strategy = "passthrough" :=
  ⟨((claim_C4 30).1 (by decide)).1,
   ((claim_C4 29).2.1 (by decide) (by decide)).1,
   ((claim_C4 10).2.1 (by decide) (by decide)).1,
   ((claim_C4 9).2.2.1 (by decide) (by decide)).1,
   ((claim_C4 3).2.2.1 (by decide) (by decide)).1,
   ((claim_C4 2).2.2.2 (by decide)).1⟩

/-- C1: isolation of top articles from cluster summaries: every cluster
object handed to `writeClusterSummary` contains no article whose id is in
the top selection, and it is a fresh copy of one of the input clusters
whose article list is that cluster's list filtered by the exclusion — the
input cluster itself (and the input list) are left untouched by the
purely functional construction. -/
theorem claim_C1 (topSelected : List Article) (clusters : List Cluster)
    (c' : Cluster) (hmem : c' ∈ summaryCallInputs topSelected clusters) :
    (∀ a ∈ c'.articles, (topSelected.map (·.id)).contains a.id = false)
    ∧ ∃ c ∈ clusters,
        c'.articles = c.articles.filter
          (fun a => ! (topSelected.map (·.id)).contains a.id)
        ∧ c' = { c with articles := c'.articles } := by
  unfold summaryCallInputs at hmem
  obtain ⟨c, hc, hsome⟩ := List.mem_filterMap.mp hmem
  simp only at hsome
  split at hsome
  · exact absurd hsome (by simp)
  · injection hsome with hsome
    subst hsome
    refine ⟨?_, c, hc, rfl, rfl⟩
    intro a ha
    have := List.of_mem_filter ha
    simpa using this

/-- Witness for C1 on a concrete selection and cluster list. -/
theorem claim_C1_witness :
    ([mkArt "a" 1].map (·.id)).contains (mkArt "b" 2).id = false :=
  (claim_C1 [mkArt "a" 1]
    [Cluster.mk 0 none [mkArt "a" 1, mkArt "b" 2] none "main" none none]
    (Cluster.mk 0 none [mkArt "b" 2] none "main" none none)
    (by decide)).1 (mkArt "b" 2) (by decide)

/-- The main-cluster curation fold succeeds exactly when every cluster's
curation call succeeds. -/
theorem curateFold_ok_iff (tmplMain : String)
    (gen : Nat → String → Except String String) :
    ∀ (l : List Cluster) (acc : List CuratedCluster),
      (∃ r, (l.foldlM (fun (acc : List CuratedCluster) cluster =>
          match curateMainCluster tmplMain gen cluster (cluster.label.getD "") with
          | .ok curated => Except.ok (acc ++ [curated])
          | .error e =>
            Except.error ("Failed to curate cluster \"" ++ cluster.label.getD "" ++ "\": " ++ e))
        acc) = .ok r)
      ↔ ∀ c ∈ l, ∃ cur,
          curateMainCluster tmplMain gen c (c.label.getD "") = .ok cur := by
  intro l
  induction l with
  | nil =>
    intro acc
    refine ⟨fun _ => by simp, fun _ => ⟨acc, rfl⟩⟩
  | cons c cs ih =>
    intro acc
    rw [List.foldlM_cons]
    cases hc : curateMainCluster tmplMain gen c (c.label.getD "") with
    | ok curated =>
      constructor
      · intro hr
        have hr' : ∃ r, (cs.foldlM (fun acc cluster =>
            match curateMainCluster tmplMain gen cluster (cluster.label.getD "") with
            | .ok curated => Except.ok (acc ++ [curated])
            | .error e =>
              Except.error ("Failed to curate cluster \"" ++ cluster.label.getD "" ++ "\": " ++ e))
            (acc ++ [curated])) = .ok r := hr
        intro x hx
        rcases List.mem_cons.mp hx with h | h
        · exact h ▸ ⟨curated, hc⟩
        · exact ((ih (acc ++ [curated])).mp hr') x h
      · intro hall
        exact (ih (acc ++ [curated])).mpr (fun x hx => hall x (by simp [hx]))
    | error e =>
      constructor
      · rintro ⟨r, hr⟩
        exact absurd hr (by simp [Bind.bind, Except.bind])
      · intro hall
        obtain ⟨cur, hcur⟩ := hall c (by simp)
        rw [hc] at hcur
        exact absurd hcur (by simp)

/-- C6: curation failure is fatal: the curation phase of the first
pipeline's `run()` produces a curated result if and only if every main
cluster's curation call and (when present) the miscellaneous cluster's
curation call succeed — a failing cluster is never skipped, and no digest
input is produced from the remaining clusters. -/
theorem claim_C6 (tmplMain tmplMisc : String)
    (gen : Nat → String → Except String String)
    (mainClusters : List Cluster) (miscCluster : Option Cluster) :
    (∃ r, curationPhase tmplMain tmplMisc gen mainClusters miscCluster = .ok r)
    ↔ ((∀ c ∈ mainClusters, ∃ cur,
          curateMainCluster tmplMain gen c (c.label.getD "") = .ok cur)
        ∧ (∀ m, miscCluster = some m → ∃ cur,
            curateMiscCluster tmplMisc gen m = .ok cur)) := by
  unfold curationPhase
  cases hfold : mainClusters.foldlM (fun (acc : List CuratedCluster) cluster =>
      match curateMainCluster tmplMain gen cluster (cluster.label.getD "") with
      | .ok curated => Except.ok (acc ++ [curated])
      | .error e =>
        Except.error ("Failed to curate cluster \"" ++ cluster.label.getD "" ++ "\": " ++ e))
      ([] : List CuratedCluster) with
  | error e =>
    simp only [Bind.bind, Except.bind]
    constructor
    · rintro ⟨r, hr⟩
      exact absurd hr (by simp)
    · rintro ⟨hmains, -⟩
      obtain ⟨r, hr⟩ := (curateFold_ok_iff tmplMain gen mainClusters []).mpr hmains
      rw [hfold] at hr
      exact absurd hr (by simp)
  | ok curatedMain =>
    have hmains : ∀ c ∈ mainClusters, ∃ cur,
        curateMainCluster tmplMain gen c (c.label.getD "") = .ok cur :=
      (curateFold_ok_iff tmplMain gen mainClusters []).mp ⟨curatedMain, hfold⟩
    simp only [Bind.bind, Except.bind]
    cases miscCluster with
    | none =>
      simp only
      constructor
      · intro _
        exact ⟨hmains, by simp⟩
      · intro _
        exact ⟨(curatedMain,
          { label := "Long Tail", articles := some [], summary := none
            originalArticleCount := none, curatedContent := none
            strategy := none }), rfl⟩
    | some m =>
      simp only
      cases hmisc : curateMiscCluster tmplMisc gen m with
      | ok cur =>
        constructor
        · intro _
          refine ⟨hmains, ?_⟩
          intro m' hm'
          cases hm'
          exact ⟨cur, hmisc⟩
        · intro _
          exact ⟨(curatedMain, cur), rfl⟩
      | error e2 =>
        constructor
        · rintro ⟨r, hr⟩
          exact absurd hr (by simp)
        · rintro ⟨-, hmiscOk⟩
          obtain ⟨cur, hcur⟩ := hmiscOk m rfl
          rw [hmisc] at hcur
          exact absurd hcur (by simp)

/-- Witness for C6: with an always-failing generation service and one
non-passthrough main cluster, the curation phase fails. -/
theorem claim_C6_witness :
    ¬ ∃ r, curationPhase "t" "t" (fun _ _ => .error "down")
      [Cluster.mk 0 none [mkArt "a" 1, mkArt "b" 2, mkArt "c" 3] none "main" none none]
      none = .ok r := by
  intro h
  obtain ⟨hmains, -⟩ := (claim_C6 "t" "t" (fun _ _ => .error "down")
    [Cluster.mk 0 none [mkArt "a" 1, mkArt "b" 2, mkArt "c" 3] none "main" none none]
    none).mp h
  obtain ⟨cur, hcur⟩ := hmains
    (Cluster.mk 0 none [mkArt "a" 1, mkArt "b" 2, mkArt "c" 3] none "main" none none)
    (by simp)
  exact absurd hcur (by simp [curateMainCluster, getCurationStrategy,
    withRetry, withRetryAux])

theorem sortByWordCountDesc_length (l : List Article) :
    (sortByWordCountDesc l).length = l.length :=
  (List.perm_insertionSort _ l).length_eq

theorem sortByWordCountDesc_ne_nil {l : List Article} (h : l ≠ []) :
    sortByWordCountDesc l ≠ [] := by
  intro hnil
  apply h
  have := sortByWordCountDesc_length l
  rw [hnil] at this
  exact List.length_eq_zero.mp this.symm

theorem sortByWordCountDesc_sorted (l : List Article) :
    List.Sorted (fun a b => b.wordCount ≤ a.wordCount) (sortByWordCountDesc l) :=
  List.sorted_insertionSort _ l

/-- The deterministic fallback returns a non-empty bounded prefix of the
word-count-sorted pool. -/
theorem fallbackByLength_spec (pool : List Article) (count : Nat)
    (hpool : pool ≠ []) (hcount : 1 ≤ count) :
    (fallbackByLength pool count).selected ≠ []
    ∧ (fallbackByLength pool count).selected.length ≤ count := by
  unfold fallbackByLength
  constructor
  · simp only
    rw [Ne, List.take_eq_nil_iff]
    push_neg
    exact ⟨by omega, sortByWordCountDesc_ne_nil hpool⟩
  · simp [List.length_take]

/-- The bare-integer tier either returns a non-empty bounded selection or
falls back; both outcomes are non-empty and bounded. -/
theorem numbersOrFallback_spec (pool : List Article) (count : Nat)
    (resp : GenResponseModel) (hpool : pool ≠ []) (hcount : 1 ≤ count) :
    (numbersOrFallback pool count resp).selected ≠ []
    ∧ (numbersOrFallback pool count resp).selected.length ≤ count := by
  simp only [numbersOrFallback]
  split
  · exact fallbackByLength_spec pool count hpool hcount
  · split
    case isTrue hi =>
      constructor
      · simp only [Ne, List.map_eq_nil_iff]
        intro hnil
        rw [hnil] at hi
        simp at hi
      · simp only [List.length_map, List.length_take]
        omega
    case isFalse hi =>
      exact fallbackByLength_spec pool count hpool hcount

/-- C5 (amended): selection never raises; on a non-empty pool with
`count ≥ 1` the top-N variant always returns a non-empty selection of at
most `count` articles; the best-of-week variant returns at most 5 articles
but (unlike the top-N variant) can return an empty selection when a JSON
object parses with only out-of-range indices (see the counterexample);
and when the response contains no parseable JSON and no bare integers and
the pool is larger than the bound, both variants return exactly the bound
many articles sorted by descending word count. -/
theorem claim_C5 (pool : List Article) (count : Nat) (resp : GenResponseModel)
    (hpool : pool ≠ []) (hcount : 1 ≤ count) :
    ((selectTopArticles pool count resp).selected ≠ []
      ∧ (selectTopArticles pool count resp).selected.length ≤ count)
    ∧ (selectBestOfWeek pool resp).selected.length ≤ 5
    ∧ (resp.json = .noMatch → resp.numbers = [] →
        (count < pool.length →
          (selectTopArticles pool count resp).selected
            = (sortByWordCountDesc pool).take count
          ∧ (selectTopArticles pool count resp).selected.length = count
          ∧ List.Sorted (fun a b => b.wordCount ≤ a.wordCount)
              ((selectTopArticles pool count resp).selected))
        ∧ (5 < pool.length →
          (selectBestOfWeek pool resp).selected
            = (sortByWordCountDesc pool).take 5)) := by
  refine ⟨?_, ?_, ?_⟩
  · simp only [selectTopArticles]
    by_cases hle : pool.length ≤ count
    · rw [if_pos hle]
      exact ⟨hpool, hle⟩
    · rw [if_neg hle]
      cases hj : resp.json with
      | parseError => exact fallbackByLength_spec pool count hpool hcount
      | noMatch => exact numbersOrFallback_spec pool count resp hpool hcount
      | parsed p =>
        simp only
        split
        next hs =>
          constructor
          · intro hnil
            exact absurd (congrArg List.length hnil) hs.ne'
          · simp only [List.length_map, List.length_take]
            omega
        next hs =>
          exact numbersOrFallback_spec pool count resp hpool hcount
  · simp only [selectBestOfWeek]
    by_cases hle : pool.length ≤ 5
    · rw [if_pos hle]
      exact hle
    · rw [if_neg hle]
      cases hj : resp.json with
      | parseError => simp [List.length_take]
      | noMatch => simp [List.length_take]
      | parsed p => simp [List.length_take]
  · intro hj hn
    constructor
    · intro hlt
      have hsel : selectTopArticles pool count resp =
          fallbackByLength pool count := by
        simp only [selectTopArticles]
        rw [if_neg (by omega), hj]
        simp only [numbersOrFallback]
        rw [if_pos (by simp [hn])]
      rw [hsel]
      refine ⟨rfl, ?_, ?_⟩
      · show ((sortByWordCountDesc pool).take count).length = count
        simp only [List.length_take, sortByWordCountDesc_length]
        omega
      · exact List.Pairwise.sublist (List.take_sublist _ _)
          (sortByWordCountDesc_sorted pool)
    · intro hlt
      simp only [selectBestOfWeek]
      rw [if_neg (by omega), hj]

/-- Witness for C5 on a concrete pool and an empty response. -/
theorem claim_C5_witness :
    (selectTopArticles samplePool6 4 ⟨.noMatch, [], ""⟩).selected ≠ []
    ∧ (selectTopArticles samplePool6 4 ⟨.noMatch, [], ""⟩).selected.length ≤ 4 :=
  (claim_C5 samplePool6 4 ⟨.noMatch, [], ""⟩ (by decide) (by decide)).1

/-- Counterexample to C5 as stated: on a non-empty six-article pool,
`selectBestOfWeek` given a response whose JSON parses to the single
out-of-range index 10 returns an empty selection — the claimed
"never empty on non-empty input" fails for the best-of-week variant. -/
theorem claim_C5_cex :
    (selectBestOfWeek samplePool6
      ⟨.parsed ⟨[.num 10], none⟩, [], ""⟩).selected = [] := by
  decide

/-- C8 (amended): in `selectTopArticles` a numeric JSON index is coerced
down by one only when it strictly exceeds the pool length; the coerced
value is then still at least the pool length, so coercion never brings a
numeric index into range — a numeric index survives the range filter
exactly when it was already a valid 0-based index, and is looked up
unchanged.  An index equal to the pool length (valid 1-based, invalid
0-based) is dropped, not coerced.  String entries are parsed and always
treated as 1-based.  Out-of-range indices are dropped by the filter rather
than raising.  `selectBestOfWeek` applies no coercion at all: its numeric
indices survive exactly when `0 ≤ i < pool length`. -/
theorem claim_C8 (len : Nat) (v : JsonIndexVal) (j : Int) :
    ((mapJsonIndex len v = some j ∧ 0 ≤ j ∧ j < (len : Int)) ↔
      ((∃ i : Int, v = .num i ∧ j = i ∧ 0 ≤ i ∧ i < (len : Int)) ∨
       (∃ x : Int, v = .str (some x) ∧ j = x - 1 ∧ 1 ≤ x ∧ x ≤ (len : Int))))
    ∧ ∀ i : Int,
        (fun w => match w with
          | JsonIndexVal.num i => some i
          | JsonIndexVal.str w => w) (JsonIndexVal.num i) = some i := by
  constructor
  · cases v with
    | num i =>
      simp only [mapJsonIndex]
      constructor
      · rintro ⟨hj, h0, hlt⟩
        left
        refine ⟨i, rfl, ?_, ?_, ?_⟩ <;>
          (injection hj with hj; subst hj; split at * <;> omega)
      · rintro (⟨i', hi', hji, h0, hlt⟩ | ⟨x, hx, -, -, -⟩)
        · injection hi' with hi'
          subst hi'
          refine ⟨?_, by omega, by omega⟩
          rw [if_neg (by omega), hji]
        · exact absurd hx (by simp)
    | str w =>
      cases w with
      | none =>
        simp [mapJsonIndex]
      | some x =>
        simp only [mapJsonIndex]
        constructor
        · rintro ⟨hj, h0, hlt⟩
          right
          rw [Option.map_some'] at hj
          injection hj with hj
          have hj' : x - 1 = j := hj
          exact ⟨x, rfl, hj'.symm, by omega, by omega⟩
        · rintro (⟨i', hi', -, -, -⟩ | ⟨x', hx', hj, h1, hle⟩)
          · exact absurd hi' (by simp)
          · injection hx' with hx'
            injection hx' with hx'
            subst hx'
            subst hj
            exact ⟨by rw [Option.map_some'], by omega, by omega⟩
  · intro i
    rfl

/-- Witness for C8: an in-range numeric index (1 in a pool of 3) survives
the filter unchanged. -/
theorem claim_C8_witness :
    mapJsonIndex 3 (.num 1) = some 1 ∧ 0 ≤ (1 : Int) ∧ (1 : Int) < (3 : Int) :=
  ((claim_C8 3 (.num 1) 1).1).mpr (.inl ⟨1, rfl, rfl, by decide, by decide⟩)

/-- Counterexample to C8 as stated: in a pool of three articles, the
parsed numeric index 3 exceeds the valid 0-based range and fits as
1-based, so per the claim it should be coerced to 2 and select the third
article ("c"); the code does not coerce it (3 > 3 is false), drops it, and
falls back to word count, selecting "a" instead. -/
theorem claim_C8_cex :
    mapJsonIndex 3 (.num 3) = some 3
    ∧ (selectTopArticles [mkArt "a" 50, mkArt "b" 30, mkArt "c" 10] 1
        ⟨.parsed ⟨[.num 3], none⟩, [], ""⟩).selected.map (·.id) = ["a"] := by
  exact ⟨rfl, by decide⟩

/-- C10: `cosineSimilarity` is total, and the explicit zero-denominator
guard returns 0 whenever either vector has zero magnitude (assuming only
`Math.sqrt 0 = 0` of the abstract square root), so the representative-
article computation never divides by a zero norm. -/
theorem claim_C10 (sqrt : ℚ → ℚ) (a b : Vec)
    (hsqrt : sqrt 0 = 0) (hlen : a.length = b.length)
    (hz : (∀ x ∈ a, x = 0) ∨ (∀ x ∈ b, x = 0)) :
    cosineSimilarity sqrt a b = 0 := by
  have hfold : ∀ (f : Nat → ℚ) (l : List Nat) (acc : ℚ),
      (∀ i ∈ l, f i = 0) → l.foldl (fun acc i => acc + f i) acc = acc := by
    intro f l
    induction l with
    | nil => intro acc _; rfl
    | cons x xs ih =>
      intro acc h
      rw [List.foldl_cons, h x (by simp), add_zero]
      exact ih acc (fun i hi => h i (by simp [hi]))
  simp only [cosineSimilarity]
  rcases hz with hza | hzb
  · have hA : (List.range a.length).foldl
        (fun acc i => acc + a.getD i 0 * a.getD i 0) 0 = 0 := by
      apply hfold
      intro i _
      rcases Nat.lt_or_ge i a.length with h | h
      · rw [List.getD_eq_getElem?_getD, List.getElem?_eq_getElem h]
        simp [hza _ (List.getElem_mem h)]
      · rw [List.getD_eq_getElem?_getD, List.getElem?_eq_none (by omega)]
        simp
    rw [hA, hsqrt, zero_mul, if_pos rfl]
  · have hB : (List.range a.length).foldl
        (fun acc i => acc + b.getD i 0 * b.getD i 0) 0 = 0 := by
      apply hfold
      intro i _
      rcases Nat.lt_or_ge i b.length with h | h
      · rw [List.getD_eq_getElem?_getD, List.getElem?_eq_getElem h]
        simp [hzb _ (List.getElem_mem h)]
      · rw [List.getD_eq_getElem?_getD, List.getElem?_eq_none (by omega)]
        simp
    rw [hB, hsqrt, mul_zero, if_pos rfl]

/-- Witness for C10 on concrete zero vectors. -/
theorem claim_C10_witness :
    cosineSimilarity (fun x => x) [0, 0] [1, 2] = 0 :=
  claim_C10 (fun x => x) [0, 0] [1, 2] rfl rfl (.inl (by decide))

end Digest
